import Mathlib

/-!
Shallow embedding of the ucrimp firmware sources and verification of the
frozen claims about them.

Modelling conventions:
- Python floats are modelled as rationals.
- Python byte strings are modelled as lists of naturals (each below 256).
- Python text strings are modelled as lists of characters; a characters's
  UTF-8 encoding is computed by the standard UTF-8 algorithm, so that the
  distinction Python makes between character count and encoded byte count
  is preserved.
- Fallible operations are modelled with Option or Except; external effects
  (sensor reads, BLE notifications) enter the state-transition functions as
  explicit outcome parameters.
-/

namespace UCrimp

/-! ## calculations.py -/

/-- Embedding of get_median_value from src/lib/calculations.py.
The empty list returns 0.0; otherwise the list is sorted ascending and the
middle element (odd length) or mean of the two middle elements (even
length) is returned.  Indexing uses getD with default 0, standing in for
Python indexing, whose indices are shown in range by the C10 theorem. -/
def get_median_value (values : List ℚ) : ℚ :=
  if values = [] then 0.0
  else
    let sorted_values := values.insertionSort (· ≤ ·)
    let n := sorted_values.length
    if n % 2 = 0 then
      (sorted_values.getD (n / 2 - 1) 0 + sorted_values.getD (n / 2) 0) / 2.0
    else
      sorted_values.getD (n / 2) 0

/-! ## hx711_spi.py -/

namespace HX711

/-- The 25-clock-pulse waveform byte pattern (field clock_25). -/
def clock_25 : List ℕ := [0xaa, 0xaa, 0xaa, 0xaa, 0xaa, 0xaa, 0x80]

/-- The 26-clock-pulse waveform byte pattern (field clock_26). -/
def clock_26 : List ℕ := [0xaa, 0xaa, 0xaa, 0xaa, 0xaa, 0xaa, 0xa0]

/-- The 27-clock-pulse waveform byte pattern (field clock_27). -/
def clock_27 : List ℕ := [0xaa, 0xaa, 0xaa, 0xaa, 0xaa, 0xaa, 0xa8]

/-- Bits of one byte, most significant first, as emitted on the SPI MOSI
line that drives the HX711 clock input. -/
def byteBits (b : ℕ) : List Bool :=
  (List.range 8).map (fun i => b / 2 ^ (7 - i) % 2 = 1)

/-- The serial bit stream produced by shifting out a byte pattern. -/
def bitstream (bytes : List ℕ) : List Bool :=
  bytes.flatMap byteBits

/-- Number of rising edges in a bit stream, starting from a low line
(the driver holds the clock line low between transfers). -/
def risingEdges : List Bool → Bool → ℕ
  | [], _ => 0
  | b :: rest, prev => (if b && !prev then 1 else 0) + risingEdges rest b

/-- Number of clock pulses a waveform byte pattern produces. -/
def pulseCount (bytes : List ℕ) : ℕ :=
  risingEdges (bitstream bytes) false

end HX711

/-- Mutable state of the HX711 driver relevant to gain selection:
the currently selected clock waveform and the power flag. -/
structure HX711State where
  clock : List ℕ
  is_powered_down : Bool
deriving DecidableEq

/-- Driver state after construction: clock_25 selected, powered up
(mirrors the field initialisation in HX711.init before set_gain runs). -/
def HX711State.initial : HX711State :=
  { clock := HX711.clock_25, is_powered_down := false }

/-- Embedding of HX711.set_gain from src/lib/hx711_spi.py: gain 128 selects
clock_25, gain 64 selects clock_27, gain 32 selects clock_26, any other
gain raises ValueError (modelled as none).  The two priming reads performed
afterwards do not change the selected waveform and are omitted. -/
def HX711State.set_gain (gain : ℕ) (h : HX711State) : Option HX711State :=
  let h := if h.is_powered_down then { h with is_powered_down := false } else h
  if gain = 128 then some { h with clock := HX711.clock_25 }
  else if gain = 64 then some { h with clock := HX711.clock_27 }
  else if gain = 32 then some { h with clock := HX711.clock_26 }
  else none

/-! ## device.py — DataPoint codec -/

/-- Python constant MAX_PAYLOAD_SIZE. -/
def MAX_PAYLOAD_SIZE : ℕ := 10

/-- Python constant DEVICE_ID_SIZE. -/
def DEVICE_ID_SIZE : ℕ := 6

/-- Standard UTF-8 encoding of one character, as produced by the Python
str.encode method for each character of a string. -/
def utf8Char (c : Char) : List ℕ :=
  let n := c.toNat
  if n < 0x80 then [n]
  else if n < 0x800 then [0xC0 + n / 64, 0x80 + n % 64]
  else if n < 0x10000 then
    [0xE0 + n / 4096, 0x80 + n / 64 % 64, 0x80 + n % 64]
  else
    [0xF0 + n / 262144, 0x80 + n / 4096 % 64, 0x80 + n / 64 % 64, 0x80 + n % 64]

/-- UTF-8 encoding of a string (a Python str is a character sequence). -/
def encodeUtf8 (s : List Char) : List ℕ :=
  s.flatMap utf8Char

/-- Python bytes.ljust: pad on the right with the fill byte up to the
requested width; unchanged when already at least that wide. -/
def ljust (l : List ℕ) (width : ℕ) (fill : ℕ) : List ℕ :=
  l ++ List.replicate (width - l.length) fill

/-- Embedding of the DataPoint class fields: response code, length field
and the fixed 10-byte value buffer. -/
structure DataPoint where
  response_code : ℕ
  length : ℕ
  value : List ℕ
deriving DecidableEq

/-- Embedding of DataPoint.init: the value buffer starts as 10 zero
bytes; when data is nonempty and length is positive, the first
min(length, len(data), MAX_PAYLOAD_SIZE) bytes of data are copied in. -/
def DataPoint.make (response_code : ℕ) (length : ℕ) (data : List ℕ) : DataPoint :=
  let value :=
    if data ≠ [] ∧ length > 0 then
      let copy_len := min length (min data.length MAX_PAYLOAD_SIZE)
      data.take copy_len ++ List.replicate (MAX_PAYLOAD_SIZE - copy_len) 0
    else List.replicate MAX_PAYLOAD_SIZE 0
  { response_code := response_code, length := length, value := value }

/-- Embedding of DataPoint.as_gatt: header byte pair followed by the first
length bytes of the value buffer (nothing when length is zero). -/
def DataPoint.as_gatt (dp : DataPoint) : List ℕ :=
  [dp.response_code, dp.length] ++
    (if dp.length > 0 then dp.value.take dp.length else [])

/-! Little-endian serialisation used by struct.pack.  toLEBytes k n always
produces exactly k bytes, least significant first. -/

/-- k little-endian bytes of a natural number. -/
def toLEBytes : ℕ → ℕ → List ℕ
  | 0, _ => []
  | k + 1, n => n % 256 :: toLEBytes k (n / 256)

/-! IEEE-754 binary32 encoding, modelling the f conversion of struct.pack.
All arithmetic is on numerator/denominator pairs of naturals so that the
encoder evaluates inside the kernel. -/

/-- Round the fraction a / b (b positive) to the nearest integer, ties to
even — the rounding used when a float is converted to binary32. -/
def roundHalfEvenN (a b : ℕ) : ℕ :=
  let q := a / b
  let r := a % b
  if 2 * r < b then q
  else if b < 2 * r then q + 1
  else if q % 2 = 0 then q else q + 1

/-- Halve num/den (by doubling den) until it is below 2, counting the
exponent up; fuel bounds the loop and is ample for inputs below 2 ^ 128. -/
def scaleDownN : ℕ → ℕ → ℕ → ℤ → ℕ × ℕ × ℤ
  | 0, n, d, e => (n, d, e)
  | fuel + 1, n, d, e =>
    if 2 * d ≤ n then scaleDownN fuel n (2 * d) (e + 1) else (n, d, e)

/-- Double num/den until it reaches 1, counting the exponent down; fuel is
ample for inputs above 2 ^ (-150). -/
def scaleUpN : ℕ → ℕ → ℕ → ℤ → ℕ × ℕ × ℤ
  | 0, n, d, e => (n, d, e)
  | fuel + 1, n, d, e =>
    if n < d then scaleUpN fuel (2 * n) d (e - 1) else (n, d, e)

/-- binary32 bits of the nonnegative magnitude num/den (den positive):
zero, subnormal, normal and infinity cases, with round-to-nearest-even. -/
def f32bitsOfRatN (num den : ℕ) : ℕ :=
  if num = 0 then 0
  else if 2 ^ 128 * den ≤ num then 0x7F800000
  else if 2 ^ 150 * num ≤ den then 0
  else if 2 ^ 126 * num < den then
    roundHalfEvenN (num * 2 ^ 149) den
  else
    let nde := if den ≤ num then scaleDownN 300 num den 0 else scaleUpN 300 num den 0
    let e := nde.2.2
    let m := roundHalfEvenN (nde.1 * 2 ^ 23) nde.2.1
    if m = 2 ^ 24 then
      if 127 < e + 1 then 0x7F800000
      else (e + 1 + 127).toNat * 2 ^ 23
    else (e + 127).toNat * 2 ^ 23 + (m - 2 ^ 23)

/-- binary32 bit pattern of a rational, sign bit included. -/
def f32bits (q : ℚ) : ℕ :=
  let sign : ℕ := if q < 0 then 1 else 0
  sign * 2 ^ 31 + f32bitsOfRatN q.num.natAbs q.den

/-- Little-endian 4-byte float32 serialisation (struct.pack of f with the
little-endian flag). -/
def pack_f_le (w : ℚ) : List ℕ :=
  toLEBytes 4 (f32bits w)

/-- Little-endian 4-byte uint32 serialisation (struct.pack of L with the
little-endian flag). -/
def pack_L_le (t : ℕ) : List ℕ :=
  toLEBytes 4 t

/-- Embedding of DataPoint.weight_measurement: response code 0x01,
length 8, payload little-endian float32 weight then uint32 timestamp. -/
def DataPoint.weight_measurement (weight : ℚ) (timestamp : ℕ) : DataPoint :=
  DataPoint.make 0x01 8 (pack_f_le weight ++ pack_L_le timestamp)

/-- Embedding of DataPoint.battery_voltage: response code 0x00, length 4,
payload little-endian uint32 voltage. -/
def DataPoint.battery_voltage (voltage : ℕ) : DataPoint :=
  DataPoint.make 0x00 4 (pack_L_le voltage)

/-- Embedding of DataPoint.app_version: response code 0x00, length equal
to the UTF-8 byte length of the version string. -/
def DataPoint.app_version (version : List Char) : DataPoint :=
  let data := encodeUtf8 version
  DataPoint.make 0x00 data.length data

/-- Embedding of DataPoint.progressor_id: when the id has at least 6
characters its UTF-8 bytes are truncated to 6, otherwise they are
right-padded with zero bytes to width 6; the result is reversed and placed
in a DataPoint with response code 0x00 and length DEVICE_ID_SIZE. -/
def DataPoint.progressor_id (device_id : List Char) : DataPoint :=
  let device_id_bytes :=
    if device_id.length ≥ 6 then (encodeUtf8 device_id).take 6
    else ljust (encodeUtf8 device_id) 6 0
  DataPoint.make 0x00 DEVICE_ID_SIZE device_id_bytes.reverse

/-! ## device.py — UCrimpDevice state machine

The mutable fields of UCrimpDevice that the control commands and the three
cooperative tasks read and write.  BLE notification outcomes and sensor
read outcomes are passed in as explicit parameters; the current tick
counter enters as the now parameter. -/

/-- The MeasurementTaskStatus enumeration. -/
inductive MeasurementTaskStatus where
  | DISABLED
  | ENABLED
  | CALIBRATION
  | TARE
  | DEFAULT_CALIBRATION
deriving DecidableEq

/-! The CommandCode opcode constants. -/

namespace CommandCode

def TARE_SCALE : ℕ := 0x64

def START_MEASUREMENT : ℕ := 0x65

def STOP_MEASUREMENT : ℕ := 0x66

def SHUTDOWN : ℕ := 0x6E

def SAMPLE_BATTERY : ℕ := 0x6F

def GET_PROGRESSOR_ID : ℕ := 0x70

def GET_APP_VERSION : ℕ := 0x6B

def GET_CALIBRATION : ℕ := 0x72

def ADD_CALIBRATION_POINT : ℕ := 0x73

def DEFAULT_CALIBRATION : ℕ := 0x74

end CommandCode

/-- Mutable state of a UCrimpDevice: connection handle (a plain natural),
measurement status, start timestamp, tare offset, shutdown flag, and the
calibration parameters. -/
structure DeviceState where
  connected_device : Option ℕ
  measurement_status : MeasurementTaskStatus
  start_time : ℕ
  tare_offset : ℚ
  shutdown_requested : Bool
  slope : ℚ
  intercept : ℚ
deriving DecidableEq

/-- State at construction: no connection, measurement disabled, zero start
time and tare offset, shutdown flag clear. -/
def DeviceState.initial (slope intercept : ℚ) : DeviceState :=
  { connected_device := none
    measurement_status := .DISABLED
    start_time := 0
    tare_offset := 0.0
    shutdown_requested := false
    slope := slope
    intercept := intercept }

/-- Embedding of UCrimpDevice.stop_measurement. -/
def DeviceState.stop_measurement (s : DeviceState) : DeviceState :=
  { s with measurement_status := .DISABLED, start_time := 0 }

/-- Embedding of UCrimpDevice.shutdown: sets the shutdown flag and
disables measurement. -/
def DeviceState.shutdown (s : DeviceState) : DeviceState :=
  { s with shutdown_requested := true, measurement_status := .DISABLED }

/-- Python round to two decimal places, modelled as round-half-to-even of
one hundred times the value (the tie direction is irrelevant to every
claim; Python rounds float ties of the scaled value to even). -/
def roundHalfEvenQ (q : ℚ) : ℤ :=
  if q - ⌊q⌋ < 1 / 2 then ⌊q⌋
  else if 1 / 2 < q - ⌊q⌋ then ⌊q⌋ + 1
  else if ⌊q⌋ % 2 = 0 then ⌊q⌋ else ⌊q⌋ + 1

/-- Rounding to two decimal places. -/
def round2 (x : ℚ) : ℚ :=
  (roundHalfEvenQ (x * 100) : ℚ) / 100

/-- Embedding of UCrimpDevice.raw_to_kg: zero at the tare offset,
otherwise the linear conversion, clamped below by zero after rounding to
two decimals, then forced to zero unless strictly above the 0.5
deadband. -/
def DeviceState.raw_to_kg (s : DeviceState) (raw_value : ℚ) : ℚ :=
  let calculated_weight :=
    if raw_value = s.tare_offset then 0.0
    else (raw_value - s.tare_offset - s.intercept) / s.slope
  let final_weight := max 0.00 (round2 calculated_weight)
  if final_weight > 0.5 then final_weight else 0.0

/-- Embedding of UCrimpDevice.perform_tare.  The outcome of
read_multiple_values enters as a parameter: error when any exception was
raised while sampling, ok with the sample list otherwise.  Returns the new
state and the boolean result. -/
def DeviceState.perform_tare (read_result : Except Unit (List ℚ))
    (s : DeviceState) : DeviceState × Bool :=
  match read_result with
  | .error _ => (s, false)
  | .ok raw_values =>
    if raw_values = [] then (s, false)
    else ({ s with tare_offset := get_median_value raw_values }, true)

/-- Embedding of UCrimpDevice.send_data_point: a no-op without a
connection; with a connection, a failed notify clears the connection
handle (and nothing else). -/
def DeviceState.send_data_point (notify_ok : Bool) (s : DeviceState) : DeviceState :=
  if s.connected_device.isSome then
    if notify_ok then s else { s with connected_device := none }
  else s

/-- Embedding of UCrimpDevice.send_weight_measurement: a no-op without a
connection; a failed sensor read is caught and leaves the state unchanged;
a failed notify clears the connection handle and stops measurement. -/
def DeviceState.send_weight_measurement (read_result : Except Unit (List ℚ))
    (notify_ok : Bool) (s : DeviceState) : DeviceState :=
  if s.connected_device = none then s
  else
    match read_result with
    | .error _ => s
    | .ok _ =>
      if notify_ok then s
      else DeviceState.stop_measurement { s with connected_device := none }

/-- Embedding of UCrimpDevice.process_control_command.  The data payload is
accepted and ignored exactly as in the source; now is the tick counter read
for START_MEASUREMENT; notify_ok is the outcome of the BLE notification a
query command attempts. -/
def DeviceState.process_control_command (now : ℕ) (notify_ok : Bool)
    (op_code : ℕ) (data : List ℕ) (s : DeviceState) : DeviceState :=
  let _ := data
  if op_code = CommandCode.TARE_SCALE then
    { s with measurement_status := .TARE }
  else if op_code = CommandCode.START_MEASUREMENT then
    if ¬s.shutdown_requested then
      { s with start_time := now, measurement_status := .ENABLED }
    else s
  else if op_code = CommandCode.STOP_MEASUREMENT then
    s.stop_measurement
  else if op_code = CommandCode.GET_APP_VERSION then
    s.send_data_point notify_ok
  else if op_code = CommandCode.GET_PROGRESSOR_ID then
    s.send_data_point notify_ok
  else if op_code = CommandCode.SAMPLE_BATTERY then
    s.send_data_point notify_ok
  else if op_code = CommandCode.ADD_CALIBRATION_POINT then
    s
  else if op_code = CommandCode.DEFAULT_CALIBRATION then
    s
  else if op_code = CommandCode.SHUTDOWN then
    DeviceState.shutdown s.stop_measurement
  else s

/-- One iteration of the body of UCrimpDevice.measurement_task.  Returns
the successor state together with a flag telling whether the iteration
reached the weight-measurement path (and hence read the sensor).  The
guard condition mirrors the Python operator precedence: measurement is
stopped when the status is ENABLED with no connection, or whenever the
shutdown flag is set. -/
def DeviceState.measurement_step (read_result : Except Unit (List ℚ))
    (notify_ok : Bool) (s : DeviceState) : DeviceState × Bool :=
  let s1 :=
    if (s.measurement_status = .ENABLED ∧ s.connected_device = none)
        ∨ s.shutdown_requested then
      s.stop_measurement
    else s
  match s1.measurement_status with
  | .DISABLED => (s1, false)
  | .TARE =>
    if ¬s1.shutdown_requested then
      let s2 := (s1.perform_tare read_result).1
      ({ s2 with measurement_status := .DISABLED }, false)
    else ({ s1 with measurement_status := .DISABLED }, false)
  | .ENABLED =>
    if s1.connected_device.isSome ∧ ¬s1.shutdown_requested then
      (s1.send_weight_measurement read_result notify_ok, true)
    else (s1.stop_measurement, false)
  | .CALIBRATION => ({ s1 with measurement_status := .DISABLED }, false)
  | .DEFAULT_CALIBRATION => ({ s1 with measurement_status := .DISABLED }, false)

/-- The decoding of a control-point message inlined in
UCrimpDevice.gatt_events_task: a nonempty message splits into its first
byte (the opcode) and the remaining bytes (the payload); an empty message
yields nothing. -/
def decode_command (message : List ℕ) : Option (ℕ × List ℕ) :=
  match message with
  | [] => none
  | op_code :: rest => some (op_code, rest)

/-- One iteration of the body of UCrimpDevice.gatt_events_task after a
write event delivered the given message: a nonempty message is decoded and
dispatched; an empty message is skipped with no state change. -/
def DeviceState.gatt_step (message : List ℕ) (now : ℕ) (notify_ok : Bool)
    (s : DeviceState) : DeviceState :=
  match decode_command message with
  | none => s
  | some (op_code, data) => s.process_control_command now notify_ok op_code data

/-- Connection acceptance in UCrimpDevice.advertise: store the connection
handle and clear the shutdown flag. -/
def DeviceState.accept (handle : ℕ) (s : DeviceState) : DeviceState :=
  { s with connected_device := some handle, shutdown_requested := false }

/-- Disconnection handling in UCrimpDevice.advertise: clear the connection
handle and stop measurement. -/
def DeviceState.disconnect (s : DeviceState) : DeviceState :=
  DeviceState.stop_measurement { s with connected_device := none }

/-- An observable event of the three cooperative tasks, carrying the
external outcomes (sensor reads, notify results, clock reads, incoming
messages) it consumes. -/
inductive Event where
  | accept (handle : ℕ)
  | disconnect
  | gatt (message : List ℕ) (now : ℕ) (notify_ok : Bool)
  | mstep (read_result : Except Unit (List ℚ)) (notify_ok : Bool)

/-- Effect of one event on the device state. -/
def applyEvent : Event → DeviceState → DeviceState
  | .accept handle, s => s.accept handle
  | .disconnect, s => s.disconnect
  | .gatt message now notify_ok, s => s.gatt_step message now notify_ok
  | .mstep read_result notify_ok, s => (s.measurement_step read_result notify_ok).1

/-- States reachable from a given state through event sequences. -/
inductive Reachable (s0 : DeviceState) : DeviceState → Prop where
  | refl : Reachable s0 s0
  | step (e : Event) {s : DeviceState} :
      Reachable s0 s → Reachable s0 (applyEvent e s)

/-! ## Theorems -/

/-- Claim C1, counterexample.  The claim asserts that set_gain 64 selects
the 26-pulse clock waveform and set_gain 32 the 27-pulse one.  On the
freshly constructed driver state, set_gain 64 in fact selects clock_27,
whose waveform carries 27 clock pulses, not 26, and set_gain 32 selects
clock_26 with 26 pulses, not 27. -/
theorem c1_counterexample :
    HX711State.initial.set_gain 64 =
      some { clock := HX711.clock_27, is_powered_down := false } ∧
    HX711.pulseCount HX711.clock_27 = 27 ∧
    HX711State.initial.set_gain 32 =
      some { clock := HX711.clock_26, is_powered_down := false } ∧
    HX711.pulseCount HX711.clock_26 = 26 ∧
    HX711.clock_27 ≠ HX711.clock_26 := by
  refine ⟨?_, by decide, ?_, by decide, by decide⟩ <;>
    simp [HX711State.set_gain, HX711State.initial]

/-- Claim C1, amended: set_gain 128 selects the 25-pulse waveform
clock_25, set_gain 64 selects the 27-pulse waveform clock_27, and
set_gain 32 selects the 26-pulse waveform clock_26 (from every driver
state, the power flag being cleared on the way); the three selected
waveforms are pairwise distinct. -/
theorem c1_gain_selects_waveform (h : HX711State) :
    h.set_gain 128 = some { h with is_powered_down := false, clock := HX711.clock_25 } ∧
    h.set_gain 64 = some { h with is_powered_down := false, clock := HX711.clock_27 } ∧
    h.set_gain 32 = some { h with is_powered_down := false, clock := HX711.clock_26 } ∧
    HX711.pulseCount HX711.clock_25 = 25 ∧
    HX711.pulseCount HX711.clock_26 = 26 ∧
    HX711.pulseCount HX711.clock_27 = 27 ∧
    HX711.clock_25 ≠ HX711.clock_26 ∧
    HX711.clock_25 ≠ HX711.clock_27 ∧
    HX711.clock_26 ≠ HX711.clock_27 := by
  obtain ⟨clock, pd⟩ := h
  refine ⟨?_, ?_, ?_, by decide, by decide, by decide, by decide, by decide, by decide⟩ <;>
    cases pd <;> simp [HX711State.set_gain]

/-- Claim C10: get_median_value is total; it returns 0 on the empty list,
and on every nonempty list it returns the middle element of the ascending
sorted version of the list when the length is odd, and the mean of the two
middle elements when the length is even.  The sorted version is a sorted
permutation of the input and the middle indices are in range. -/
theorem c10_get_median_value_spec :
    get_median_value [] = 0 ∧
    ∀ values : List ℚ, values ≠ [] →
      List.Sorted (· ≤ ·) (values.insertionSort (· ≤ ·)) ∧
      (values.insertionSort (· ≤ ·)).Perm values ∧
      (values.insertionSort (· ≤ ·)).length = values.length ∧
      values.length / 2 < values.length ∧
      get_median_value values =
        (if values.length % 2 = 0 then
          ((values.insertionSort (· ≤ ·)).getD (values.length / 2 - 1) 0 +
            (values.insertionSort (· ≤ ·)).getD (values.length / 2) 0) / 2
        else (values.insertionSort (· ≤ ·)).getD (values.length / 2) 0) := by
  constructor
  · norm_num [get_median_value]
  · intro values hne
    have hperm := List.perm_insertionSort (· ≤ ·) values
    have hlen : (values.insertionSort (· ≤ ·)).length = values.length :=
      hperm.length_eq
    have hpos : 0 < values.length := List.length_pos.mpr hne
    refine ⟨List.sorted_insertionSort _ _, hperm, hlen, Nat.div_lt_self hpos (by norm_num), ?_⟩
    simp only [get_median_value, if_neg hne, hlen]
    norm_num

/-- Witness for claim C1 at the freshly constructed driver state. -/
theorem c1_gain_selects_waveform_witness :
    HX711State.initial.set_gain 128
        = some { HX711State.initial with is_powered_down := false, clock := HX711.clock_25 } ∧
    HX711State.initial.set_gain 64
        = some { HX711State.initial with is_powered_down := false, clock := HX711.clock_27 } ∧
    HX711State.initial.set_gain 32
        = some { HX711State.initial with is_powered_down := false, clock := HX711.clock_26 } ∧
    HX711.pulseCount HX711.clock_25 = 25 ∧
    HX711.pulseCount HX711.clock_26 = 26 ∧
    HX711.pulseCount HX711.clock_27 = 27 ∧
    HX711.clock_25 ≠ HX711.clock_26 ∧
    HX711.clock_25 ≠ HX711.clock_27 ∧
    HX711.clock_26 ≠ HX711.clock_27 :=
  c1_gain_selects_waveform HX711State.initial

/-- Witness for claim C10 at the concrete sample list. -/
theorem c10_get_median_value_spec_witness :
    ([3, 1, 2] : List ℚ) ≠ [] ∧
    (List.Sorted (· ≤ ·) (([3, 1, 2] : List ℚ).insertionSort (· ≤ ·)) ∧
      (([3, 1, 2] : List ℚ).insertionSort (· ≤ ·)).Perm [3, 1, 2] ∧
      (([3, 1, 2] : List ℚ).insertionSort (· ≤ ·)).length = ([3, 1, 2] : List ℚ).length ∧
      ([3, 1, 2] : List ℚ).length / 2 < ([3, 1, 2] : List ℚ).length ∧
      get_median_value [3, 1, 2] =
        (if ([3, 1, 2] : List ℚ).length % 2 = 0 then
          ((([3, 1, 2] : List ℚ).insertionSort (· ≤ ·)).getD
              (([3, 1, 2] : List ℚ).length / 2 - 1) 0 +
            (([3, 1, 2] : List ℚ).insertionSort (· ≤ ·)).getD
              (([3, 1, 2] : List ℚ).length / 2) 0) / 2
        else (([3, 1, 2] : List ℚ).insertionSort (· ≤ ·)).getD
          (([3, 1, 2] : List ℚ).length / 2) 0)) :=
  ⟨by decide, c10_get_median_value_spec.2 [3, 1, 2] (by decide)⟩

/-! Rounding lemmas supporting claim C2. -/

theorem roundHalfEvenQ_nonneg {q : ℚ} (hq : 0 ≤ q) : 0 ≤ roundHalfEvenQ q := by
  have hf : (0 : ℤ) ≤ ⌊q⌋ := Int.floor_nonneg.mpr hq
  unfold roundHalfEvenQ
  split
  · exact hf
  · split
    · omega
    · split <;> omega

theorem roundHalfEvenQ_nonpos {q : ℚ} (hq : q ≤ 0) : roundHalfEvenQ q ≤ 0 := by
  have hf : ⌊q⌋ ≤ 0 := by
    calc ⌊q⌋ ≤ ⌊(0 : ℚ)⌋ := Int.floor_le_floor hq
    _ = 0 := Int.floor_zero
  unfold roundHalfEvenQ
  split
  · exact hf
  · rename_i hlt
    split
    · rename_i hgt
      have hz : ⌊q⌋ ≠ 0 := by
        intro hz
        rw [hz] at hgt
        norm_num at hgt
        linarith
      omega
    · split <;> omega

theorem round2_nonneg {x : ℚ} (hx : 0 ≤ x) : 0 ≤ round2 x := by
  unfold round2
  have h : (0 : ℤ) ≤ roundHalfEvenQ (x * 100) :=
    roundHalfEvenQ_nonneg (by positivity)
  positivity

theorem round2_nonpos {x : ℚ} (hx : x ≤ 0) : round2 x ≤ 0 := by
  unfold round2
  have h : roundHalfEvenQ (x * 100) ≤ 0 :=
    roundHalfEvenQ_nonpos (by nlinarith)
  have : ((roundHalfEvenQ (x * 100) : ℤ) : ℚ) ≤ 0 := by exact_mod_cast h
  linarith

theorem round2_zero : round2 0 = 0 := by
  norm_num [round2, roundHalfEvenQ]

/-- Clamping to zero commutes with rounding to two decimals. -/
theorem max_zero_round2_comm (x : ℚ) : max 0 (round2 x) = round2 (max 0 x) := by
  rcases le_total x 0 with hx | hx
  · rw [max_eq_left (round2_nonpos hx), max_eq_left hx, round2_zero]
  · rw [max_eq_right hx, max_eq_right (round2_nonneg hx)]

/-- Modelled from the words of claim C2, for comparison with the embedded
raw_to_kg: zero at the tare offset; otherwise the linear conversion,
clamped to a minimum of zero, rounded to two decimals, and forced to zero
whenever the rounded result is at most 0.5. -/
def raw_to_kg_claim (slope intercept tare_offset raw : ℚ) : ℚ :=
  if raw = tare_offset then 0
  else
    let w := round2 (max 0 ((raw - tare_offset - intercept) / slope))
    if w ≤ 0.5 then 0 else w

/-- Claim C2: on every device state and raw value, raw_to_kg agrees with
the claimed description (zero exactly at the tare offset regardless of
slope and intercept, otherwise the converted weight clamped at zero,
rounded to two decimals, with results at most 0.5 reported as zero); and a
computed weight of 0.51 is reported as 0.51 unchanged. -/
theorem c2_raw_to_kg_spec (s : DeviceState) (raw : ℚ) :
    s.raw_to_kg raw = raw_to_kg_claim s.slope s.intercept s.tare_offset raw ∧
    (DeviceState.initial 1 0).raw_to_kg 0.51 = 0.51 := by
  have h00 : (0.00 : ℚ) = 0 := by norm_num
  have h0 : (0.0 : ℚ) = 0 := by norm_num
  constructor
  · unfold DeviceState.raw_to_kg raw_to_kg_claim
    by_cases heq : raw = s.tare_offset
    · rw [if_pos heq, if_pos heq]
      dsimp only
      rw [h0, h00, round2_zero]
      norm_num
    · rw [if_neg heq, if_neg heq]
      dsimp only
      rw [h0, h00, max_zero_round2_comm]
      rcases le_or_lt (round2 (max 0 ((raw - s.tare_offset - s.intercept) / s.slope))) 0.5
        with hle | hgt
      · rw [if_neg (not_lt.mpr hle), if_pos hle]
      · rw [if_pos hgt, if_neg (not_le.mpr hgt)]
  · unfold DeviceState.raw_to_kg DeviceState.initial
    norm_num [round2, roundHalfEvenQ]

/-- Witness for claim C2 at the concrete conversion of 0.51. -/
theorem c2_raw_to_kg_spec_witness :
    (DeviceState.initial 1 0).raw_to_kg 0.51
        = raw_to_kg_claim (DeviceState.initial 1 0).slope (DeviceState.initial 1 0).intercept
            (DeviceState.initial 1 0).tare_offset 0.51 ∧
    (DeviceState.initial 1 0).raw_to_kg 0.51 = 0.51 :=
  c2_raw_to_kg_spec (DeviceState.initial 1 0) 0.51

/-- Claim C9: perform_tare never propagates an exception (it is a total
function of the sampling outcome); when sampling raised an error or
produced an empty sample list it returns false and leaves the whole state,
tare_offset included, unchanged; and it replaces tare_offset (with the
median of the samples) exactly when it returns true. -/
theorem c9_perform_tare_safe (s : DeviceState) (read_result : Except Unit (List ℚ)) :
    ((s.perform_tare read_result).2 = false → (s.perform_tare read_result).1 = s) ∧
    ((read_result = .error () ∨ read_result = .ok []) →
      (s.perform_tare read_result).2 = false) ∧
    ((s.perform_tare read_result).2 = true →
      ∃ raw_values, read_result = .ok raw_values ∧ raw_values ≠ [] ∧
        (s.perform_tare read_result).1 =
          { s with tare_offset := get_median_value raw_values }) := by
  rcases read_result with e | raw_values
  · simp [DeviceState.perform_tare]
  · by_cases hv : raw_values = []
    · subst hv
      simp [DeviceState.perform_tare]
    · simp [DeviceState.perform_tare, hv]

/-- Witness for claim C9 on the failed-sampling outcome. -/
theorem c9_perform_tare_safe_witness :
    ((Except.error () : Except Unit (List ℚ)) = .error () ∨
      (Except.error () : Except Unit (List ℚ)) = .ok []) ∧
    ((DeviceState.initial 1 0).perform_tare (.error ())).2 = false ∧
    ((DeviceState.initial 1 0).perform_tare (.error ())).1 = DeviceState.initial 1 0 :=
  ⟨Or.inl rfl,
    (c9_perform_tare_safe (DeviceState.initial 1 0) (.error ())).2.1 (Or.inl rfl),
    (c9_perform_tare_safe (DeviceState.initial 1 0) (.error ())).1
      ((c9_perform_tare_safe (DeviceState.initial 1 0) (.error ())).2.1 (Or.inl rfl))⟩

/-! Flag-preservation helpers for claim C3. -/

theorem send_data_point_shutdown_flag (s : DeviceState) (nOk : Bool) :
    (s.send_data_point nOk).shutdown_requested = s.shutdown_requested := by
  unfold DeviceState.send_data_point
  split_ifs <;> rfl

theorem process_preserves_shutdown_flag (s : DeviceState) (now : ℕ) (nOk : Bool)
    (op : ℕ) (data : List ℕ) (h : s.shutdown_requested = true) :
    (s.process_control_command now nOk op data).shutdown_requested = true := by
  unfold DeviceState.process_control_command
  split_ifs <;>
    first
    | exact h
    | rfl
    | (rw [send_data_point_shutdown_flag]; exact h)

theorem measurement_step_preserves_shutdown_flag (s : DeviceState)
    (read_result : Except Unit (List ℚ)) (nOk : Bool) :
    (s.measurement_step read_result nOk).1.shutdown_requested = s.shutdown_requested := by
  unfold DeviceState.measurement_step DeviceState.perform_tare
    DeviceState.send_weight_measurement
  rcases read_result with e | raw_values <;>
    dsimp only <;>
    split <;> split_ifs <;> simp_all [DeviceState.stop_measurement]

/-- Claim C3: processing SHUTDOWN from every state leaves measurement
Disabled with the shutdown flag set; while the flag is set,
START_MEASUREMENT changes nothing (in particular it never enables
measurement); no control command and no measurement-loop step or
disconnection clears the flag — only accepting a new connection does,
which stores the handle, and a START_MEASUREMENT arriving after the
acceptance enables measurement again. -/
theorem c3_shutdown_lifecycle :
    (∀ (s : DeviceState) (now : ℕ) (nOk : Bool) (data : List ℕ),
      (s.process_control_command now nOk CommandCode.SHUTDOWN data).measurement_status
          = .DISABLED ∧
      (s.process_control_command now nOk CommandCode.SHUTDOWN data).shutdown_requested
          = true) ∧
    (∀ (s : DeviceState) (now : ℕ) (nOk : Bool) (data : List ℕ),
      s.shutdown_requested = true →
      s.process_control_command now nOk CommandCode.START_MEASUREMENT data = s) ∧
    (∀ (s : DeviceState) (now : ℕ) (nOk : Bool) (op : ℕ) (data : List ℕ),
      s.shutdown_requested = true →
      (s.process_control_command now nOk op data).shutdown_requested = true) ∧
    (∀ (s : DeviceState) (read_result : Except Unit (List ℚ)) (nOk : Bool),
      (s.measurement_step read_result nOk).1.shutdown_requested
          = s.shutdown_requested) ∧
    (∀ s : DeviceState, s.disconnect.shutdown_requested = s.shutdown_requested) ∧
    (∀ (s : DeviceState) (handle : ℕ),
      (s.accept handle).shutdown_requested = false ∧
      (s.accept handle).connected_device = some handle) ∧
    (∀ (s : DeviceState) (handle : ℕ) (now : ℕ) (nOk : Bool) (data : List ℕ),
      ((s.accept handle).process_control_command now nOk
          CommandCode.START_MEASUREMENT data).measurement_status = .ENABLED) := by
  refine ⟨?_, ?_, ?_, ?_, ?_, ?_, ?_⟩
  · intro s now nOk data
    constructor <;>
      simp [DeviceState.process_control_command, CommandCode.SHUTDOWN,
        CommandCode.TARE_SCALE, CommandCode.START_MEASUREMENT,
        CommandCode.STOP_MEASUREMENT, CommandCode.GET_APP_VERSION,
        CommandCode.GET_PROGRESSOR_ID, CommandCode.SAMPLE_BATTERY,
        CommandCode.ADD_CALIBRATION_POINT, CommandCode.DEFAULT_CALIBRATION,
        DeviceState.shutdown, DeviceState.stop_measurement]
  · intro s now nOk data h
    simp [DeviceState.process_control_command, CommandCode.START_MEASUREMENT,
      CommandCode.TARE_SCALE, h]
  · intro s now nOk op data h
    exact process_preserves_shutdown_flag s now nOk op data h
  · intro s read_result nOk
    exact measurement_step_preserves_shutdown_flag s read_result nOk
  · intro s
    simp [DeviceState.disconnect, DeviceState.stop_measurement]
  · intro s handle
    constructor <;> simp [DeviceState.accept]
  · intro s handle now nOk data
    simp [DeviceState.process_control_command, CommandCode.START_MEASUREMENT,
      CommandCode.TARE_SCALE, DeviceState.accept]

/-- Witness for claim C3 on a concrete shut-down state. -/
theorem c3_shutdown_lifecycle_witness :
    ({ DeviceState.initial 1 0 with shutdown_requested := true } : DeviceState).shutdown_requested
        = true ∧
    ({ DeviceState.initial 1 0 with shutdown_requested := true } : DeviceState).process_control_command
        0 true CommandCode.START_MEASUREMENT []
      = { DeviceState.initial 1 0 with shutdown_requested := true } :=
  ⟨rfl, c3_shutdown_lifecycle.2.1 _ 0 true [] rfl⟩

/-! Helpers for claim C4: the status of a state can be ENABLED after a
step only when the shutdown flag is clear. -/

theorem send_data_point_status (s : DeviceState) (nOk : Bool) :
    (s.send_data_point nOk).measurement_status = s.measurement_status := by
  unfold DeviceState.send_data_point
  split_ifs <;> rfl

theorem process_enabled_flag (s : DeviceState) (now : ℕ) (nOk : Bool)
    (op : ℕ) (data : List ℕ)
    (ih : s.measurement_status = .ENABLED → s.shutdown_requested = false) :
    (s.process_control_command now nOk op data).measurement_status = .ENABLED →
    (s.process_control_command now nOk op data).shutdown_requested = false := by
  unfold DeviceState.process_control_command
  split_ifs <;> intro he <;>
    first
    | exact ih he
    | (rw [send_data_point_status] at he
       rw [send_data_point_shutdown_flag]
       exact ih he)
    | simp_all [DeviceState.stop_measurement, DeviceState.shutdown]

theorem measurement_step_enabled_flag (s : DeviceState)
    (read_result : Except Unit (List ℚ)) (nOk : Bool) :
    (s.measurement_step read_result nOk).1.measurement_status = .ENABLED →
    (s.measurement_step read_result nOk).1.shutdown_requested = false := by
  unfold DeviceState.measurement_step DeviceState.send_weight_measurement
    DeviceState.perform_tare
  rcases read_result with e | raw_values <;>
    dsimp only <;>
    split <;> split_ifs <;> intro he <;>
      simp_all [DeviceState.stop_measurement]

/-- In every state reachable from the constructed device, measurement can
be ENABLED only with the shutdown flag clear. -/
theorem reachable_enabled_flag {slope intercept : ℚ} {s : DeviceState}
    (hr : Reachable (DeviceState.initial slope intercept) s) :
    s.measurement_status = .ENABLED → s.shutdown_requested = false := by
  induction hr with
  | refl =>
    intro h
    simp [DeviceState.initial] at h
  | step e h ih =>
    cases e with
    | accept handle =>
      intro _
      simp [applyEvent, DeviceState.accept]
    | disconnect =>
      intro hc
      simp [applyEvent, DeviceState.disconnect, DeviceState.stop_measurement] at hc
    | gatt message now nOk =>
      cases message with
      | nil =>
        simpa [applyEvent, DeviceState.gatt_step, decode_command] using ih
      | cons op rest =>
        simpa [applyEvent, DeviceState.gatt_step, decode_command] using
          process_enabled_flag _ now nOk op rest ih
    | mstep read_result nOk =>
      exact measurement_step_enabled_flag _ read_result nOk

/-- Claim C4: the ENABLED-implies-valid-session condition.  In every state
reachable from construction, measurement is ENABLED only with the shutdown
flag clear; whenever the condition is violated on the connection side or
the flag side (transient violations are reachable, e.g. through a failed
notify that clears the connection), the next measurement-loop iteration
forces the status back to DISABLED and performs no measurement; and an
iteration reads the sensor for a weight measurement only from a state that
was ENABLED with a connection present and the shutdown flag clear. -/
theorem c4_enabled_only_with_connection :
    (∀ (slope intercept : ℚ) (s : DeviceState),
      Reachable (DeviceState.initial slope intercept) s →
      s.measurement_status = .ENABLED → s.shutdown_requested = false) ∧
    (∀ (s : DeviceState) (read_result : Except Unit (List ℚ)) (nOk : Bool),
      s.measurement_status = .ENABLED →
      (s.connected_device = none ∨ s.shutdown_requested = true) →
      (s.measurement_step read_result nOk).1.measurement_status = .DISABLED ∧
      (s.measurement_step read_result nOk).2 = false) ∧
    (∀ (s : DeviceState) (read_result : Except Unit (List ℚ)) (nOk : Bool),
      (s.measurement_step read_result nOk).2 = true →
      s.measurement_status = .ENABLED ∧ s.connected_device ≠ none ∧
        s.shutdown_requested = false) := by
  refine ⟨fun slope intercept s hr => reachable_enabled_flag hr, ?_, ?_⟩
  · intro s read_result nOk hen hviol
    have hguard : (s.measurement_status = .ENABLED ∧ s.connected_device = none)
        ∨ s.shutdown_requested = true := by
      rcases hviol with hc | hf
      · exact Or.inl ⟨hen, hc⟩
      · exact Or.inr hf
    unfold DeviceState.measurement_step
    rw [if_pos hguard]
    simp [DeviceState.stop_measurement]
  · intro s read_result nOk hm
    unfold DeviceState.measurement_step at hm
    by_cases hguard : (s.measurement_status = .ENABLED ∧ s.connected_device = none)
        ∨ s.shutdown_requested = true
    · rw [if_pos hguard] at hm
      simp [DeviceState.stop_measurement] at hm
    · rw [if_neg hguard] at hm
      revert hm
      dsimp only
      split
      · intro hm
        simp at hm
      · intro hm
        split_ifs at hm
      · rename_i hst
        intro hm
        split_ifs at hm with hcond
        · refine ⟨hst, ?_, ?_⟩
          · intro hc
            rw [hc] at hcond
            simp at hcond
          · simpa using hcond.2
      · intro hm
        simp at hm
      · intro hm
        simp at hm

/-- A transiently violating state: measurement ENABLED while no connection
is present (reachable, e.g., after a failed notify cleared the handle). -/
def enabledNoConnState : DeviceState :=
  { DeviceState.initial 1 0 with measurement_status := .ENABLED }

/-- A connected state with measurement enabled. -/
def connectedEnabledState : DeviceState :=
  { DeviceState.initial 1 0 with connected_device := some 1, measurement_status := .ENABLED }

/-- Witness for claim C4 at a concrete transiently violating state
(measurement ENABLED with no connection present). -/
theorem c4_enabled_only_with_connection_witness :
    enabledNoConnState.measurement_status = .ENABLED ∧
    enabledNoConnState.connected_device = none ∧
    (enabledNoConnState.measurement_step (.error ()) true).1.measurement_status = .DISABLED ∧
    (enabledNoConnState.measurement_step (.error ()) true).2 = false :=
  ⟨rfl, rfl,
    (c4_enabled_only_with_connection.2.1 _ (.error ()) true rfl (Or.inl rfl)).1,
    (c4_enabled_only_with_connection.2.1 _ (.error ()) true rfl (Or.inl rfl)).2⟩

/-- Claim C6, counterexample.  The claim asserts that an empty
control-point frame makes the command loop drop the connection (clear the
handle and stop measurement).  In the code the empty message merely skips
the dispatch: on a connected, measuring state the loop iteration changes
nothing — the handle stays set and measurement stays enabled. -/
theorem c6_counterexample :
    connectedEnabledState.gatt_step [] 0 true = connectedEnabledState ∧
    (connectedEnabledState.gatt_step [] 0 true).connected_device = some 1 ∧
    (connectedEnabledState.gatt_step [] 0 true).measurement_status = .ENABLED :=
  ⟨rfl, rfl, rfl⟩

/-- Claim C6, amended: decoding fails exactly on the empty byte sequence
(otherwise the opcode is the first byte and the payload the remaining
bytes); the command loop skips an empty frame entirely — no state change
and no dropped connection — and an unrecognized opcode (one outside the
nine handled ones) changes no state and drops no connection either. -/
theorem c6_decode_and_unknown_opcodes :
    (∀ message : List ℕ, decode_command message = none ↔ message = []) ∧
    (∀ (op_code : ℕ) (rest : List ℕ),
      decode_command (op_code :: rest) = some (op_code, rest)) ∧
    (∀ (s : DeviceState) (now : ℕ) (nOk : Bool), s.gatt_step [] now nOk = s) ∧
    (∀ (s : DeviceState) (now : ℕ) (nOk : Bool) (op : ℕ) (data : List ℕ),
      op ∉ ([0x64, 0x65, 0x66, 0x6B, 0x6E, 0x6F, 0x70, 0x73, 0x74] : List ℕ) →
      s.process_control_command now nOk op data = s ∧
      s.gatt_step (op :: data) now nOk = s) := by
  refine ⟨?_, ?_, ?_, ?_⟩
  · intro message
    cases message <;> simp [decode_command]
  · intro op_code rest
    rfl
  · intro s now nOk
    rfl
  · intro s now nOk op data hop
    simp only [List.mem_cons, List.not_mem_nil, or_false] at hop
    push_neg at hop
    obtain ⟨h64, h65, h66, h6B, h6E, h6F, h70, h73, h74⟩ := hop
    have hp : s.process_control_command now nOk op data = s := by
      unfold DeviceState.process_control_command
      simp only [CommandCode.TARE_SCALE, CommandCode.START_MEASUREMENT,
        CommandCode.STOP_MEASUREMENT, CommandCode.GET_APP_VERSION,
        CommandCode.GET_PROGRESSOR_ID, CommandCode.SAMPLE_BATTERY,
        CommandCode.ADD_CALIBRATION_POINT, CommandCode.DEFAULT_CALIBRATION,
        CommandCode.SHUTDOWN]
      simp [h64, h65, h66, h6B, h6E, h6F, h70, h73, h74]
    exact ⟨hp, hp⟩

/-- Witness for claim C6 at the concrete unhandled opcode 0x72
(GET_CALIBRATION, listed in CommandCode but given no branch). -/
theorem c6_decode_and_unknown_opcodes_witness :
    (0x72 : ℕ) ∉ ([0x64, 0x65, 0x66, 0x6B, 0x6E, 0x6F, 0x70, 0x73, 0x74] : List ℕ) ∧
    ((DeviceState.initial 1 0).process_control_command 0 true 0x72 [] = DeviceState.initial 1 0 ∧
      (DeviceState.initial 1 0).gatt_step ([0x72] : List ℕ) 0 true = DeviceState.initial 1 0) :=
  ⟨by decide, c6_decode_and_unknown_opcodes.2.2.2 (DeviceState.initial 1 0) 0 true 0x72 []
    (by decide)⟩

/-! Codec helper lemmas for claims C5, C7 and C8. -/

theorem toLEBytes_length (k : ℕ) : ∀ n : ℕ, (toLEBytes k n).length = k := by
  induction k with
  | zero => intro n; rfl
  | succ k ih => intro n; simp [toLEBytes, ih]

theorem DataPoint_make_length (rc len : ℕ) (data : List ℕ) :
    (DataPoint.make rc len data).length = len := rfl

theorem DataPoint_make_response_code (rc len : ℕ) (data : List ℕ) :
    (DataPoint.make rc len data).response_code = rc := rfl

/-- When the requested length is positive, within the buffer capacity and
covered by the supplied data, as_gatt emits exactly the header followed by
the first len data bytes. -/
theorem DataPoint_make_as_gatt (rc len : ℕ) (data : List ℕ)
    (hpos : 0 < len) (hcap : len ≤ MAX_PAYLOAD_SIZE) (hdata : len ≤ data.length) :
    (DataPoint.make rc len data).as_gatt = rc :: len :: data.take len := by
  have hne : data ≠ [] := by
    intro hc
    rw [hc] at hdata
    simp at hdata
    omega
  have hmin : min len (min data.length MAX_PAYLOAD_SIZE) = len := by
    unfold MAX_PAYLOAD_SIZE at hcap ⊢
    omega
  have htake : (data.take len).length = len := by
    simp [List.length_take]
    omega
  have hvalue : (DataPoint.make rc len data).value
      = data.take len ++ List.replicate (MAX_PAYLOAD_SIZE - len) 0 := by
    unfold DataPoint.make
    dsimp only
    rw [if_pos (And.intro hne hpos), hmin]
  unfold DataPoint.as_gatt
  rw [hvalue, DataPoint_make_length, DataPoint_make_response_code, if_pos hpos,
    List.take_append_of_le_length (le_of_eq htake.symm)]
  simp [List.take_take]

/-- Claim C5, counterexample.  The claim asserts that for every version
string the app_version length does not exceed 10; an eleven-character
ASCII version string gives UTF-8 byte length 11, which app_version stores
unchanged in the length field, exceeding the capacity 10. -/
theorem c5_counterexample :
    (DataPoint.app_version (List.replicate 11 'a')).length = 11 ∧
    ¬(DataPoint.app_version (List.replicate 11 'a')).length ≤ MAX_PAYLOAD_SIZE := by
  constructor <;> decide

/-- Claim C5, amended: weight_measurement, battery_voltage and
progressor_id always set a length within the buffer capacity 10;
app_version sets the length to the UTF-8 byte length of the version
string, which stays within the capacity exactly when that encoding has at
most 10 bytes — as holds for the version string 1.0.0 the firmware
sends. -/
theorem c5_lengths_bounded :
    (∀ (weight : ℚ) (timestamp : ℕ),
      (DataPoint.weight_measurement weight timestamp).length ≤ MAX_PAYLOAD_SIZE) ∧
    (∀ voltage : ℕ, (DataPoint.battery_voltage voltage).length ≤ MAX_PAYLOAD_SIZE) ∧
    (∀ device_id : List Char,
      (DataPoint.progressor_id device_id).length ≤ MAX_PAYLOAD_SIZE) ∧
    (∀ version : List Char,
      (DataPoint.app_version version).length = (encodeUtf8 version).length) ∧
    (∀ version : List Char, (encodeUtf8 version).length ≤ MAX_PAYLOAD_SIZE →
      (DataPoint.app_version version).length ≤ MAX_PAYLOAD_SIZE) ∧
    (DataPoint.app_version ['1', '.', '0', '.', '0']).length ≤ MAX_PAYLOAD_SIZE := by
  refine ⟨?_, ?_, ?_, ?_, ?_, by decide⟩
  · intro weight timestamp
    show (8 : ℕ) ≤ MAX_PAYLOAD_SIZE
    decide
  · intro voltage
    show (4 : ℕ) ≤ MAX_PAYLOAD_SIZE
    decide
  · intro device_id
    show DEVICE_ID_SIZE ≤ MAX_PAYLOAD_SIZE
    decide
  · intro version
    rfl
  · intro version h
    exact h

/-- Witness for claim C5 at the firmware version string. -/
theorem c5_lengths_bounded_witness :
    (encodeUtf8 ['1', '.', '0', '.', '0']).length ≤ MAX_PAYLOAD_SIZE ∧
    (DataPoint.app_version ['1', '.', '0', '.', '0']).length ≤ MAX_PAYLOAD_SIZE :=
  ⟨by decide, c5_lengths_bounded.2.2.2.2.1 ['1', '.', '0', '.', '0'] (by decide)⟩

/-- Claim C7: encoding a weight-measurement data point yields exactly the
two header bytes 0x01 (weight measurement) and 0x08 (payload length)
followed by the 4-byte little-endian float32 weight and the 4-byte
little-endian uint32 timestamp — ten bytes in total, nothing beyond the
length — and the concrete pair (10.0, 1000) encodes to the exact ten-byte
sequence with float32 bits 0x41200000 in little-endian order. -/
theorem c7_weight_measurement_encoding :
    (∀ (weight : ℚ) (timestamp : ℕ), timestamp < 2 ^ 32 →
      (DataPoint.weight_measurement weight timestamp).as_gatt
        = 0x01 :: 0x08 :: (pack_f_le weight ++ pack_L_le timestamp) ∧
      (DataPoint.weight_measurement weight timestamp).as_gatt.length = 10 ∧
      (pack_f_le weight).length = 4 ∧ (pack_L_le timestamp).length = 4) ∧
    (DataPoint.weight_measurement 10 1000).as_gatt
      = [0x01, 0x08, 0x00, 0x00, 0x20, 0x41, 0xE8, 0x03, 0x00, 0x00] := by
  constructor
  · intro weight timestamp ht
    have hf : (pack_f_le weight).length = 4 := by
      simp [pack_f_le, toLEBytes_length]
    have hL : (pack_L_le timestamp).length = 4 := by
      simp [pack_L_le, toLEBytes_length]
    have hlen : (pack_f_le weight ++ pack_L_le timestamp).length = 8 := by
      simp [hf, hL]
    have htake : (pack_f_le weight ++ pack_L_le timestamp).take 8
        = pack_f_le weight ++ pack_L_le timestamp := by
      rw [← hlen]
      exact List.take_length _
    have hgatt := DataPoint_make_as_gatt 0x01 8 (pack_f_le weight ++ pack_L_le timestamp)
      (by norm_num) (by decide) (le_of_eq hlen.symm)
    refine ⟨?_, ?_, hf, hL⟩
    · unfold DataPoint.weight_measurement
      rw [hgatt, htake]
    · unfold DataPoint.weight_measurement
      rw [hgatt, htake]
      simp [hf, hL]
  · decide

/-- Witness for claim C7 at the concrete weight 10.0 and timestamp 1000. -/
theorem c7_weight_measurement_encoding_witness :
    (1000 : ℕ) < 2 ^ 32 ∧
    ((DataPoint.weight_measurement 10 1000).as_gatt
        = 0x01 :: 0x08 :: (pack_f_le 10 ++ pack_L_le 1000) ∧
      (DataPoint.weight_measurement 10 1000).as_gatt.length = 10 ∧
      (pack_f_le 10).length = 4 ∧ (pack_L_le 1000).length = 4) :=
  ⟨by decide, c7_weight_measurement_encoding.1 10 1000 (by decide)⟩

/-! Helpers for claim C8: every character encodes to at least one byte. -/

theorem utf8Char_length_pos (c : Char) : 0 < (utf8Char c).length := by
  unfold utf8Char
  dsimp only
  split_ifs <;> simp

theorem length_le_encodeUtf8_length (s : List Char) :
    s.length ≤ (encodeUtf8 s).length := by
  induction s with
  | nil => simp [encodeUtf8]
  | cons c cs ih =>
    have hc := utf8Char_length_pos c
    simp only [encodeUtf8, List.flatMap_cons, List.length_append, List.length_cons] at *
    omega

/-- Modelled from the words of claim C8, for comparison with the embedded
progressor_id: the payload the claim predicts — the UTF-8 bytes of the id,
truncated to 6 bytes when there are at least 6 of them and right-padded
with zero bytes to 6 otherwise, then byte-order reversed. -/
def progressor_id_claim_payload (device_id : List Char) : List ℕ :=
  (if 6 ≤ (encodeUtf8 device_id).length then (encodeUtf8 device_id).take 6
   else ljust (encodeUtf8 device_id) 6 0).reverse

/-- Claim C8, counterexample.  The code chooses between truncation and
padding by the character count of the id while truncation operates on
bytes: for a five-character id whose UTF-8 encoding occupies seven bytes,
the code reverses all seven bytes and keeps the first six of the reversal,
while the claim prescribes reversing the first six bytes — the two
payloads differ. -/
theorem c8_counterexample :
    (DataPoint.progressor_id ['a', 'a', 'a', 'é', 'é']).as_gatt
      = [0x00, 0x06, 0xA9, 0xC3, 0xA9, 0xC3, 0x61, 0x61] ∧
    progressor_id_claim_payload ['a', 'a', 'a', 'é', 'é']
      = [0xC3, 0xA9, 0xC3, 0x61, 0x61, 0x61] ∧
    (DataPoint.progressor_id ['a', 'a', 'a', 'é', 'é']).as_gatt.drop 2
      ≠ progressor_id_claim_payload ['a', 'a', 'a', 'é', 'é'] := by
  refine ⟨by decide, by decide, by decide⟩

/-- Claim C8, amended: progressor_id always has response code 0x00 and
length 6; for an id of at least 6 characters the payload is the reverse of
the first 6 UTF-8 bytes, exactly as claimed; for a shorter id the UTF-8
bytes are zero-padded to at least 6, fully reversed, and the first 6 bytes
of the reversal are kept (which agrees with the claim whenever the
encoding is at most 6 bytes long, in particular for every ASCII id); the
id AAAAAA produces exactly the reverse of its six ASCII bytes. -/
theorem c8_progressor_id_spec :
    (∀ device_id : List Char, 6 ≤ device_id.length →
      (DataPoint.progressor_id device_id).response_code = 0x00 ∧
      (DataPoint.progressor_id device_id).length = DEVICE_ID_SIZE ∧
      (DataPoint.progressor_id device_id).as_gatt
        = 0x00 :: 0x06 :: ((encodeUtf8 device_id).take 6).reverse) ∧
    (∀ device_id : List Char, device_id.length < 6 →
      (DataPoint.progressor_id device_id).as_gatt
        = 0x00 :: 0x06 :: ((ljust (encodeUtf8 device_id) 6 0).reverse.take 6)) ∧
    (DataPoint.progressor_id ['A', 'A', 'A', 'A', 'A', 'A']).as_gatt
      = 0x00 :: 0x06 :: ([0x41, 0x41, 0x41, 0x41, 0x41, 0x41] : List ℕ).reverse := by
  refine ⟨?_, ?_, by decide⟩
  · intro device_id h6
    have hb : 6 ≤ (encodeUtf8 device_id).length :=
      le_trans h6 (length_le_encodeUtf8_length device_id)
    have hlen : (((encodeUtf8 device_id).take 6).reverse : List ℕ).length = 6 := by
      simp [List.length_take]
      omega
    have hgatt := DataPoint_make_as_gatt 0x00 DEVICE_ID_SIZE
      (((encodeUtf8 device_id).take 6).reverse) (by decide) (by decide)
      (by rw [hlen]; decide)
    have htake : (((encodeUtf8 device_id).take 6).reverse : List ℕ).take DEVICE_ID_SIZE
        = ((encodeUtf8 device_id).take 6).reverse :=
      List.take_of_length_le (by rw [hlen]; decide)
    refine ⟨rfl, rfl, ?_⟩
    unfold DataPoint.progressor_id
    rw [if_pos h6, hgatt, htake]
    simp [DEVICE_ID_SIZE]
  · intro device_id hlt
    have hlj : 6 ≤ (ljust (encodeUtf8 device_id) 6 0).length := by
      simp [ljust]
      omega
    have hgatt := DataPoint_make_as_gatt 0x00 DEVICE_ID_SIZE
      ((ljust (encodeUtf8 device_id) 6 0).reverse) (by decide) (by decide)
      (by simpa [DEVICE_ID_SIZE] using hlj)
    unfold DataPoint.progressor_id
    rw [if_neg (by omega), hgatt]
    simp [DEVICE_ID_SIZE]

/-- Witness for claim C8 at the six-character device id AAAAAA. -/
theorem c8_progressor_id_spec_witness :
    6 ≤ (['A', 'A', 'A', 'A', 'A', 'A'] : List Char).length ∧
    ((DataPoint.progressor_id ['A', 'A', 'A', 'A', 'A', 'A']).response_code = 0x00 ∧
      (DataPoint.progressor_id ['A', 'A', 'A', 'A', 'A', 'A']).length = DEVICE_ID_SIZE ∧
      (DataPoint.progressor_id ['A', 'A', 'A', 'A', 'A', 'A']).as_gatt
        = 0x00 :: 0x06 :: ((encodeUtf8 ['A', 'A', 'A', 'A', 'A', 'A']).take 6).reverse) :=
  ⟨by decide, c8_progressor_id_spec.1 ['A', 'A', 'A', 'A', 'A', 'A'] (by decide)⟩

end UCrimp
